import Mathlib

/-!
Verification of the Husqvarna Automower vacuum entity
(custom_components/husqvarna_automower/vacuum.py).

The file embeds the translation layer of the entity as executable Lean
definitions: the vendor snapshot record, the state mapper, the error
reporter, the battery clamp, the status formatter, the attribute
assembler, and the command-forwarding operations.  Vendor state,
activity and restricted-reason fields are strings, exactly as the
Python code compares them.  The external error-code lookup table
(const.ERRORCODES, a partial map from codes to localized strings) and
the timestamp-to-local-datetime conversion (which depends on the host
timezone configuration via dt_util) are passed in as parameters.
-/

namespace HusqvarnaAutomower

/-- The fixed vocabulary of host device states
(homeassistant.components.vacuum STATE_* constants). -/
inductive VacuumState where
  | cleaning
  | docked
  | error
  | idle
  | paused
  | returning
deriving DecidableEq, Repr

/-- The mower sub-object of a snapshot. -/
structure Mower where
  state : String
  activity : String
  errorCode : Int
  errorCodeTimestamp : Int
  mode : String
deriving DecidableEq, Repr

/-- The planner sub-object of a snapshot; overrideAction embeds
planner.override.action. -/
structure Planner where
  nextStartTimestamp : Int
  restrictedReason : String
  overrideAction : String
deriving DecidableEq, Repr

/-- The battery sub-object of a snapshot. -/
structure Battery where
  batteryPercent : Int
deriving DecidableEq, Repr

/-- One polled snapshot of a mower, as returned by
AutomowerEntity.get_mower_attributes. -/
structure MowerAttributes where
  mower : Mower
  planner : Planner
  battery : Battery
deriving DecidableEq, Repr

/-- The state property (vacuum.py lines 119-154): ordered decision list
over mower.state and mower.activity; the Python method returns None when
no branch matches (implicit fallthrough), embedded here as Option. -/
def state (m : MowerAttributes) : Option VacuumState :=
  if m.mower.state ∈ ["PAUSED"] then
    some VacuumState.paused
  else if m.mower.state ∈ ["WAIT_UPDATING", "WAIT_POWER_UP"] then
    some VacuumState.idle
  else if m.mower.state = "RESTRICTED" ∨
      m.mower.activity ∈ ["PARKED_IN_CS", "CHARGING"] then
    some VacuumState.docked
  else if m.mower.activity ∈ ["MOWING", "LEAVING"] then
    some VacuumState.cleaning
  else if m.mower.activity = "GOING_HOME" then
    some VacuumState.returning
  else if m.mower.state ∈
      ["FATAL_ERROR", "ERROR", "ERROR_AT_POWER_UP", "NOT_APPLICABLE",
       "UNKNOWN", "STOPPED", "OFF"] ∨
      m.mower.activity ∈ ["STOPPED_IN_GARDEN", "UNKNOWN", "NOT_APPLICABLE"] then
    some VacuumState.error
  else
    none

/-- The enumerated vendor vocabulary of mower.state (spec section 3). -/
def vendorStates : List String :=
  ["PAUSED", "WAIT_UPDATING", "WAIT_POWER_UP", "RESTRICTED", "IN_OPERATION",
   "OFF", "STOPPED", "ERROR", "FATAL_ERROR", "ERROR_AT_POWER_UP",
   "NOT_APPLICABLE", "UNKNOWN"]

/-- The enumerated vendor vocabulary of mower.activity (spec section 3). -/
def vendorActivities : List String :=
  ["PARKED_IN_CS", "CHARGING", "MOWING", "LEAVING", "GOING_HOME",
   "STOPPED_IN_GARDEN", "UNKNOWN", "NOT_APPLICABLE"]

/-- The lookup table const.ERRORCODES is defined outside vacuum.py; the
code only uses dict.get, which returns the mapped string or None for an
absent key.  The table is therefore a parameter of this type. -/
def ErrorTable : Type := Int → Option String

/-- The error property (vacuum.py lines 156-162): the localized message
for mower.errorCode when the derived state is STATE_ERROR (None when the
code is absent from the table), and the empty string otherwise. -/
def error (table : ErrorTable) (m : MowerAttributes) : Option String :=
  if state m = some VacuumState.error then
    table m.mower.errorCode
  else
    some ""

/-- The battery_level property (vacuum.py lines 174-183):
max(0, min(100, batteryPercent)). -/
def battery_level (m : MowerAttributes) : Int :=
  max 0 (min 100 m.battery.batteryPercent)

/-- Weekday of a local datetime, for the strftime %a field. -/
inductive Weekday where
  | mon
  | tue
  | wed
  | thu
  | fri
  | sat
  | sun
deriving DecidableEq, Repr

/-- The strftime %a abbreviation of a weekday in the C locale. -/
def Weekday.abbreviation : Weekday → String
  | .mon => "Mon"
  | .tue => "Tue"
  | .wed => "Wed"
  | .thu => "Thu"
  | .fri => "Fri"
  | .sat => "Sat"
  | .sun => "Sun"

/-- The fields of a local datetime object that the entity formats or
exposes: weekday, hour and minute. -/
structure LocalDateTime where
  weekday : Weekday
  hour : Nat
  minute : Nat
deriving DecidableEq, Repr

/-- Zero-padded two-digit rendering, for the strftime %H and %M fields. -/
def pad2 (n : Nat) : String :=
  if n < 10 then "0" ++ toString n else toString n

/-- strftime ", next start: %a %H:%M" on a local datetime. -/
def nextStartStrftime (d : LocalDateTime) : String :=
  ", next start: " ++ d.weekday.abbreviation ++ " " ++ pad2 d.hour ++ ":" ++
    pad2 d.minute

/-- The private __datetime_object method converts an epoch-milliseconds
timestamp to a local datetime through the external dt_util.as_local,
which depends on the host timezone configuration; the conversion is
therefore a parameter of this type. -/
def ToLocal : Type := Int → LocalDateTime

/-- The private __get_status method (vacuum.py lines 185-241).  The
Python method is a flat sequence of early returns; the two indented
blocks (under state == IN_OPERATION and state == RESTRICTED) fall
through to the later outer checks when no inner branch matches, so they
are flattened here into conjunctive guards in the same order. -/
def get_status (table : ErrorTable) (toLocal : ToLocal)
    (m : MowerAttributes) : Option String :=
  let next_start_short :=
    if m.planner.nextStartTimestamp ≠ 0 then
      nextStartStrftime (toLocal m.planner.nextStartTimestamp)
    else ""
  if m.mower.state = "UNKNOWN" then some "Unknown"
  else if m.mower.state = "NOT_APPLICABLE" then some "Not applicable"
  else if m.mower.state = "PAUSED" then some "Paused"
  else if m.mower.state = "IN_OPERATION" ∧ m.mower.activity = "UNKNOWN" then
    some "Unknown"
  else if m.mower.state = "IN_OPERATION" ∧ m.mower.activity = "NOT_APPLICABLE" then
    some "Not applicable"
  else if m.mower.state = "IN_OPERATION" ∧ m.mower.activity = "MOWING" then
    some "Mowing"
  else if m.mower.state = "IN_OPERATION" ∧ m.mower.activity = "GOING_HOME" then
    some "Going to charging station"
  else if m.mower.state = "IN_OPERATION" ∧ m.mower.activity = "CHARGING" then
    some ("Charging" ++ next_start_short)
  else if m.mower.state = "IN_OPERATION" ∧ m.mower.activity = "LEAVING" then
    some "Leaving charging station"
  else if m.mower.state = "IN_OPERATION" ∧ m.mower.activity = "PARKED_IN_CS" then
    some "Parked"
  else if m.mower.state = "IN_OPERATION" ∧ m.mower.activity = "STOPPED_IN_GARDEN" then
    some "Stopped"
  else if m.mower.state = "WAIT_UPDATING" then some "Updating"
  else if m.mower.state = "WAIT_POWER_UP" then some "Powering up"
  else if m.mower.state = "RESTRICTED" ∧
      m.planner.restrictedReason = "WEEK_SCHEDULE" then
    some ("Schedule" ++ next_start_short)
  else if m.mower.state = "RESTRICTED" ∧
      m.planner.restrictedReason = "PARK_OVERRIDE" then
    some "Park override"
  else if m.mower.state = "RESTRICTED" ∧
      m.planner.restrictedReason = "SENSOR" then
    some "Weather timer"
  else if m.mower.state = "RESTRICTED" ∧
      m.planner.restrictedReason = "DAILY_LIMIT" then
    some "Daily limit"
  else if m.mower.state = "RESTRICTED" ∧
      m.planner.restrictedReason = "NOT_APPLICABLE" then
    some "Parked until further notice"
  else if m.mower.state = "OFF" then some "Off"
  else if m.mower.state = "STOPPED" then some "Stopped"
  else if m.mower.state ∈ ["ERROR", "FATAL_ERROR", "ERROR_AT_POWER_UP"] then
    table m.mower.errorCode
  else some "Unknown"

/-- The attribute record returned by extra_state_attributes. -/
structure ExtraStateAttributes where
  status : Option String
  mode : String
  activity : String
  state : String
  errorMessage : Option String
  errorTime : Option LocalDateTime
  nextStart : Option LocalDateTime
  action : String
  restrictedReason : String
deriving DecidableEq, Repr

/-- The extra_state_attributes property (vacuum.py lines 249-283). -/
def extra_state_attributes (table : ErrorTable) (toLocal : ToLocal)
    (m : MowerAttributes) : ExtraStateAttributes :=
  let error_message :=
    if m.mower.state ∈ ["ERROR", "FATAL_ERROR", "ERROR_AT_POWER_UP"] then
      table m.mower.errorCode
    else none
  let error_time :=
    if m.mower.state ∈ ["ERROR", "FATAL_ERROR", "ERROR_AT_POWER_UP"] then
      some (toLocal m.mower.errorCodeTimestamp)
    else none
  let next_start :=
    if m.planner.nextStartTimestamp ≠ 0 then
      some (toLocal m.planner.nextStartTimestamp)
    else none
  { status := get_status table toLocal m
    mode := m.mower.mode
    activity := m.mower.activity
    state := m.mower.state
    errorMessage := error_message
    errorTime := error_time
    nextStart := next_start
    action := m.planner.overrideAction
    restrictedReason := m.planner.restrictedReason }

/-- Outcome of the single session.action call a forwarding operation
makes: either it succeeds or it raises ClientResponseError (the request
failure distinguished by the session interface). -/
inductive ActionResult where
  | ok
  | requestError
deriving DecidableEq, Repr

/-- An exception raised by the entity to its caller.  The calendar
command raises ConditionErrorMessage with these two arguments. -/
inductive HAError where
  | conditionErrorMessage (type : String) (message : String)
deriving DecidableEq, Repr

/-- One call forwarded to session.action(mower_id, payload,
command_type) with a plain string payload. -/
structure SessionCall where
  mowerId : String
  payload : String
  commandType : String
deriving DecidableEq, Repr

/-- Observable outcome of a forwarding operation with a string payload:
the exception that escapes to the caller (if any), the calls made to
session.action, and whether the failure log line was written. -/
structure OpOutcome where
  raised : Option HAError
  calls : List SessionCall
  logged_error : Bool
deriving DecidableEq, Repr

/-- async_start (vacuum.py lines 285-292): forwards actions /
ResumeSchedule; ClientResponseError is caught and logged. -/
def async_start (mower_id : String) (act : ActionResult) : OpOutcome :=
  let command_type := "actions"
  let payload := "\x7b\"data\": \x7b\"type\": \"ResumeSchedule\"\x7d\x7d"
  { raised := none
    calls := [⟨mower_id, payload, command_type⟩]
    logged_error := act == ActionResult.requestError }

/-- async_pause (vacuum.py lines 294-301): forwards actions / Pause;
ClientResponseError is caught and logged. -/
def async_pause (mower_id : String) (act : ActionResult) : OpOutcome :=
  let command_type := "actions"
  let payload := "\x7b\"data\": \x7b\"type\": \"Pause\"\x7d\x7d"
  { raised := none
    calls := [⟨mower_id, payload, command_type⟩]
    logged_error := act == ActionResult.requestError }

/-- async_stop (vacuum.py lines 303-310): forwards actions /
ParkUntilNextSchedule; ClientResponseError is caught and logged. -/
def async_stop (mower_id : String) (act : ActionResult) : OpOutcome :=
  let command_type := "actions"
  let payload := "\x7b\"data\": \x7b\"type\": \"ParkUntilNextSchedule\"\x7d\x7d"
  { raised := none
    calls := [⟨mower_id, payload, command_type⟩]
    logged_error := act == ActionResult.requestError }

/-- async_return_to_base (vacuum.py lines 312-319): forwards actions /
ParkUntilFurtherNotice; ClientResponseError is caught and logged. -/
def async_return_to_base (mower_id : String) (act : ActionResult) : OpOutcome :=
  let command_type := "actions"
  let payload := "\x7b\"data\": \x7b\"type\": \"ParkUntilFurtherNotice\"\x7d\x7d"
  { raised := none
    calls := [⟨mower_id, payload, command_type⟩]
    logged_error := act == ActionResult.requestError }

/-- One call forwarded by async_park_and_start: json.dumps of a data
object holding the caller-supplied command type string and duration. -/
structure ParkAndStartCall where
  mowerId : String
  type : String
  duration : Int
  commandType : String
deriving DecidableEq, Repr

/-- Observable outcome of async_park_and_start. -/
structure ParkAndStartOutcome where
  raised : Option HAError
  calls : List ParkAndStartCall
  logged_error : Bool
deriving DecidableEq, Repr

/-- async_park_and_start (vacuum.py lines 321-334): forwards actions /
the given command with a duration attribute; ClientResponseError is
caught and logged. -/
def async_park_and_start (mower_id command : String) (duration : Int)
    (act : ActionResult) : ParkAndStartOutcome :=
  let command_type := "actions"
  { raised := none
    calls := [⟨mower_id, command, duration, command_type⟩]
    logged_error := act == ActionResult.requestError }

/-- A Python datetime.time value as validated by the calendar service
schema: hour and minute. -/
structure Time where
  hour : Nat
  minute : Nat
deriving DecidableEq, Repr

/-- One task entry of the calendar payload built by
async_custom_calendar_command. -/
structure CalendarTask where
  start : Int
  duration : Int
  monday : Bool
  tuesday : Bool
  wednesday : Bool
  thursday : Bool
  friday : Bool
  saturday : Bool
  sunday : Bool
deriving DecidableEq, Repr

/-- One call forwarded by async_custom_calendar_command: json.dumps of a
data object of type calendar holding the task list. -/
structure CalendarCall where
  mowerId : String
  tasks : List CalendarTask
  commandType : String
deriving DecidableEq, Repr

/-- Observable outcome of async_custom_calendar_command. -/
structure CalendarOutcome where
  raised : Option HAError
  calls : List CalendarCall
  logged_error : Bool
deriving DecidableEq, Repr

/-- async_custom_calendar_command (vacuum.py lines 336-382): converts
start and end to minutes since midnight, raises ConditionErrorMessage
when duration = end - start is not positive (before any session call),
and otherwise forwards one calendar call with a single task entry;
ClientResponseError from the session call is caught and logged. -/
def async_custom_calendar_command (mower_id : String) (startT endT : Time)
    (monday tuesday wednesday thursday friday saturday sunday : Bool)
    (act : ActionResult) : CalendarOutcome :=
  let start_in_minutes : Int := startT.hour * 60 + startT.minute
  let end_in_minutes : Int := endT.hour * 60 + endT.minute
  let duration := end_in_minutes - start_in_minutes
  if duration ≤ 0 then
    { raised := some (HAError.conditionErrorMessage "<"
        "StartingTime must be before EndingTime")
      calls := []
      logged_error := false }
  else
    { raised := none
      calls := [⟨mower_id,
        [⟨start_in_minutes, duration, monday, tuesday, wednesday, thursday,
          friday, saturday, sunday⟩], "calendar"⟩]
      logged_error := act == ActionResult.requestError }

/-- async_custom_command (vacuum.py lines 384-389): forwards the
caller-supplied json_string under the caller-supplied command_type,
with no validation or transformation; ClientResponseError is caught and
logged. -/
def async_custom_command (mower_id command_type json_string : String)
    (act : ActionResult) : OpOutcome :=
  { raised := none
    calls := [⟨mower_id, json_string, command_type⟩]
    logged_error := act == ActionResult.requestError }

/-!
Theorems, one per claim.
-/

/-- Claim C1: the state property is the ordered decision list of spec
section 4.1 with first-match-wins semantics: PAUSED yields paused
regardless of activity; otherwise WAIT_UPDATING or WAIT_POWER_UP yields
idle; otherwise RESTRICTED, or activity PARKED_IN_CS or CHARGING,
yields docked (so RESTRICTED yields docked even when the activity is
MOWING); otherwise activity MOWING or LEAVING yields cleaning;
otherwise GOING_HOME yields returning; otherwise the listed error
states or activities yield error. -/
theorem state_decision_list (m : MowerAttributes) :
    (m.mower.state = "PAUSED" → state m = some VacuumState.paused) ∧
    (m.mower.state ≠ "PAUSED" →
      m.mower.state ∈ ["WAIT_UPDATING", "WAIT_POWER_UP"] →
      state m = some VacuumState.idle) ∧
    (m.mower.state ∉ ["PAUSED", "WAIT_UPDATING", "WAIT_POWER_UP"] →
      (m.mower.state = "RESTRICTED" ∨
        m.mower.activity ∈ ["PARKED_IN_CS", "CHARGING"]) →
      state m = some VacuumState.docked) ∧
    (m.mower.state = "RESTRICTED" → state m = some VacuumState.docked) ∧
    (m.mower.state ∉ ["PAUSED", "WAIT_UPDATING", "WAIT_POWER_UP", "RESTRICTED"] →
      m.mower.activity ∉ ["PARKED_IN_CS", "CHARGING"] →
      m.mower.activity ∈ ["MOWING", "LEAVING"] →
      state m = some VacuumState.cleaning) ∧
    (m.mower.state ∉ ["PAUSED", "WAIT_UPDATING", "WAIT_POWER_UP", "RESTRICTED"] →
      m.mower.activity ∉ ["PARKED_IN_CS", "CHARGING", "MOWING", "LEAVING"] →
      m.mower.activity = "GOING_HOME" →
      state m = some VacuumState.returning) ∧
    (m.mower.state ∉ ["PAUSED", "WAIT_UPDATING", "WAIT_POWER_UP", "RESTRICTED"] →
      m.mower.activity ∉
        ["PARKED_IN_CS", "CHARGING", "MOWING", "LEAVING", "GOING_HOME"] →
      (m.mower.state ∈
        ["FATAL_ERROR", "ERROR", "ERROR_AT_POWER_UP", "NOT_APPLICABLE",
         "UNKNOWN", "STOPPED", "OFF"] ∨
       m.mower.activity ∈ ["STOPPED_IN_GARDEN", "UNKNOWN", "NOT_APPLICABLE"]) →
      state m = some VacuumState.error) := by
  refine ⟨?_, ?_, ?_, ?_, ?_, ?_, ?_⟩ <;> intros <;> simp_all [state]

/-- Witness for claim C1: a RESTRICTED snapshot whose activity is
MOWING is mapped to docked by the third rule. -/
theorem state_decision_list_witness :
    state ⟨⟨"RESTRICTED", "MOWING", 0, 0, "main_area"⟩,
        ⟨0, "WEEK_SCHEDULE", "NOT_ACTIVE"⟩, ⟨50⟩⟩ =
      some VacuumState.docked :=
  (state_decision_list
      ⟨⟨"RESTRICTED", "MOWING", 0, 0, "main_area"⟩,
        ⟨0, "WEEK_SCHEDULE", "NOT_ACTIVE"⟩, ⟨50⟩⟩).2.2.2.1 rfl

/-- Claim C2: for snapshots in state IN_OPERATION the status formatter
sub-branches on activity exactly as the branch table of spec section
4.3 states; an activity outside the enumerated vocabulary reaches the
explicit Unknown fallback; and a CHARGING snapshot whose next start
converts to Monday 06:00 local time yields the exact string
Charging, next start: Mon 06:00. -/
theorem status_in_operation (table : ErrorTable) (toLocal : ToLocal)
    (m : MowerAttributes) (h : m.mower.state = "IN_OPERATION") :
    (m.mower.activity = "MOWING" →
      get_status table toLocal m = some "Mowing") ∧
    (m.mower.activity = "GOING_HOME" →
      get_status table toLocal m = some "Going to charging station") ∧
    (m.mower.activity = "CHARGING" →
      get_status table toLocal m = some ("Charging" ++
        (if m.planner.nextStartTimestamp ≠ 0 then
          nextStartStrftime (toLocal m.planner.nextStartTimestamp)
        else ""))) ∧
    (m.mower.activity = "LEAVING" →
      get_status table toLocal m = some "Leaving charging station") ∧
    (m.mower.activity = "PARKED_IN_CS" →
      get_status table toLocal m = some "Parked") ∧
    (m.mower.activity = "STOPPED_IN_GARDEN" →
      get_status table toLocal m = some "Stopped") ∧
    (m.mower.activity = "UNKNOWN" →
      get_status table toLocal m = some "Unknown") ∧
    (m.mower.activity = "NOT_APPLICABLE" →
      get_status table toLocal m = some "Not applicable") ∧
    (m.mower.activity ∉ vendorActivities →
      get_status table toLocal m = some "Unknown") ∧
    (m.mower.activity = "CHARGING" → m.planner.nextStartTimestamp ≠ 0 →
      toLocal m.planner.nextStartTimestamp = ⟨Weekday.mon, 6, 0⟩ →
      get_status table toLocal m = some "Charging, next start: Mon 06:00") := by
  refine ⟨fun h2 => ?_, fun h2 => ?_, fun h2 => ?_, fun h2 => ?_, fun h2 => ?_,
    fun h2 => ?_, fun h2 => ?_, fun h2 => ?_, fun h2 => ?_, fun h2 hts hdt => ?_⟩ <;>
    (simp_all [get_status, vendorActivities, nextStartStrftime, pad2]; try rfl)

/-- Witness for claim C2: a charging snapshot with a next start that
converts to Monday 06:00 local time. -/
theorem status_in_operation_witness :
    get_status (fun _ => none) (fun _ => ⟨Weekday.mon, 6, 0⟩)
      ⟨⟨"IN_OPERATION", "CHARGING", 0, 0, "main_area"⟩,
        ⟨1661967600000, "NOT_APPLICABLE", "NOT_ACTIVE"⟩, ⟨50⟩⟩ =
      some "Charging, next start: Mon 06:00" :=
  (status_in_operation (fun _ => none) (fun _ => ⟨Weekday.mon, 6, 0⟩)
      ⟨⟨"IN_OPERATION", "CHARGING", 0, 0, "main_area"⟩,
        ⟨1661967600000, "NOT_APPLICABLE", "NOT_ACTIVE"⟩, ⟨50⟩⟩
      rfl).2.2.2.2.2.2.2.2.2 rfl (by decide) rfl

/-- Claim C3: the calendar command converts start and end to minutes
since midnight with duration = end - start; with duration at most zero
it raises ConditionErrorMessage and forwards nothing; with positive
duration it forwards exactly one calendar call holding a single task
with the computed start, the computed duration and the seven weekday
flags; and start 08:00 with end 08:30 forwards one task with start 480
and duration 30. -/
theorem calendar_range_check (mower_id : String) (startT endT : Time)
    (monday tuesday wednesday thursday friday saturday sunday : Bool)
    (act : ActionResult) :
    ((endT.hour * 60 + endT.minute : Int) - (startT.hour * 60 + startT.minute) ≤ 0 →
      (async_custom_calendar_command mower_id startT endT monday tuesday
          wednesday thursday friday saturday sunday act).raised =
        some (HAError.conditionErrorMessage "<"
          "StartingTime must be before EndingTime") ∧
      (async_custom_calendar_command mower_id startT endT monday tuesday
          wednesday thursday friday saturday sunday act).calls = []) ∧
    (0 < (endT.hour * 60 + endT.minute : Int) - (startT.hour * 60 + startT.minute) →
      (async_custom_calendar_command mower_id startT endT monday tuesday
          wednesday thursday friday saturday sunday act).raised = none ∧
      (async_custom_calendar_command mower_id startT endT monday tuesday
          wednesday thursday friday saturday sunday act).calls =
        [⟨mower_id,
          [⟨startT.hour * 60 + startT.minute,
            ((endT.hour * 60 + endT.minute : Int) -
              (startT.hour * 60 + startT.minute)),
            monday, tuesday, wednesday, thursday, friday, saturday, sunday⟩],
          "calendar"⟩]) ∧
    (async_custom_calendar_command mower_id ⟨8, 0⟩ ⟨8, 30⟩ monday tuesday
        wednesday thursday friday saturday sunday act).calls =
      [⟨mower_id,
        [⟨480, 30, monday, tuesday, wednesday, thursday, friday, saturday,
          sunday⟩],
        "calendar"⟩] := by
  refine ⟨fun h => ?_, fun h => ?_, ?_⟩
  · simp [async_custom_calendar_command, h]
  · simp only [async_custom_calendar_command]
    rw [if_neg (by omega)]
    exact ⟨rfl, rfl⟩
  · simp [async_custom_calendar_command]

/-- Witness for claim C3: start 08:00 with end 07:00 raises the range
error. -/
theorem calendar_range_check_witness :
    (async_custom_calendar_command "mower0" ⟨8, 0⟩ ⟨7, 0⟩ true false false
        false false false false ActionResult.ok).raised =
      some (HAError.conditionErrorMessage "<"
        "StartingTime must be before EndingTime") :=
  ((calendar_range_check "mower0" ⟨8, 0⟩ ⟨7, 0⟩ true false false false false
      false false ActionResult.ok).1 (by decide)).1

/-- Claim C4: when the single session.action call of any of the seven
forwarding operations raises the request error, the operation raises
nothing to its caller and the failure is logged. -/
theorem request_error_swallowed (mower_id command command_type json_string : String)
    (duration : Int) (startT endT : Time)
    (monday tuesday wednesday thursday friday saturday sunday : Bool)
    (act : ActionResult) (h : act = ActionResult.requestError)
    (hdur : 0 < (endT.hour * 60 + endT.minute : Int) -
      (startT.hour * 60 + startT.minute)) :
    ((async_start mower_id act).raised = none ∧
      (async_start mower_id act).logged_error = true) ∧
    ((async_pause mower_id act).raised = none ∧
      (async_pause mower_id act).logged_error = true) ∧
    ((async_stop mower_id act).raised = none ∧
      (async_stop mower_id act).logged_error = true) ∧
    ((async_return_to_base mower_id act).raised = none ∧
      (async_return_to_base mower_id act).logged_error = true) ∧
    ((async_park_and_start mower_id command duration act).raised = none ∧
      (async_park_and_start mower_id command duration act).logged_error = true) ∧
    ((async_custom_calendar_command mower_id startT endT monday tuesday
        wednesday thursday friday saturday sunday act).raised = none ∧
      (async_custom_calendar_command mower_id startT endT monday tuesday
        wednesday thursday friday saturday sunday act).logged_error = true) ∧
    ((async_custom_command mower_id command_type json_string act).raised = none ∧
      (async_custom_command mower_id command_type json_string act).logged_error = true) := by
  subst h
  refine ⟨⟨rfl, rfl⟩, ⟨rfl, rfl⟩, ⟨rfl, rfl⟩, ⟨rfl, rfl⟩, ⟨rfl, rfl⟩, ?_, ⟨rfl, rfl⟩⟩
  simp only [async_custom_calendar_command]
  rw [if_neg (by omega)]
  exact ⟨rfl, rfl⟩

/-- Witness for claim C4: async_start under a failing session call
raises nothing and logs the failure. -/
theorem request_error_swallowed_witness :
    (async_start "mower0" ActionResult.requestError).raised = none ∧
    (async_start "mower0" ActionResult.requestError).logged_error = true :=
  (request_error_swallowed "mower0" "Start" "actions" "payload" 60 ⟨8, 0⟩
      ⟨8, 30⟩ true false false false false false false
      ActionResult.requestError rfl (by decide)).1

/-- Claim C5: the state mapping is total over the enumerated vendor
vocabularies of spec section 3: no such snapshot reaches the
no-rule-matches fallthrough. -/
theorem state_total (m : MowerAttributes) (hs : m.mower.state ∈ vendorStates)
    (ha : m.mower.activity ∈ vendorActivities) : (state m).isSome := by
  simp only [vendorStates, vendorActivities, List.mem_cons,
    List.not_mem_nil, or_false] at hs ha
  rcases hs with h|h|h|h|h|h|h|h|h|h|h|h <;>
    rcases ha with h2|h2|h2|h2|h2|h2|h2|h2 <;>
    simp [state, h, h2]

/-- Witness for claim C5: an IN_OPERATION and MOWING snapshot has a
derived state. -/
theorem state_total_witness :
    (state ⟨⟨"IN_OPERATION", "MOWING", 0, 0, "main_area"⟩,
        ⟨0, "NOT_APPLICABLE", "NOT_ACTIVE"⟩, ⟨50⟩⟩).isSome :=
  state_total
    ⟨⟨"IN_OPERATION", "MOWING", 0, 0, "main_area"⟩,
      ⟨0, "NOT_APPLICABLE", "NOT_ACTIVE"⟩, ⟨50⟩⟩
    (by decide) (by decide)

/-- Claim C6 counterexample: a snapshot in state ERROR whose error code
is absent from the lookup table gets a null errorMessage, so
errorMessage is not populated for every error-state snapshot and the
claimed if-and-only-if fails. -/
theorem attributes_error_fields_counterexample :
    (extra_state_attributes (fun _ => none) (fun _ => ⟨Weekday.mon, 0, 0⟩)
        ⟨⟨"ERROR", "STOPPED_IN_GARDEN", 7, 0, "main_area"⟩,
          ⟨0, "NOT_APPLICABLE", "NOT_ACTIVE"⟩, ⟨50⟩⟩).errorMessage = none ∧
    ("ERROR" : String) ∈ ["ERROR", "FATAL_ERROR", "ERROR_AT_POWER_UP"] := by
  refine ⟨?_, by decide⟩
  simp [extra_state_attributes]

/-- Claim C6 amended: errorMessage equals the lookup result (null when
the code is absent) and errorTime is populated exactly for the three
error states, both null otherwise; nextStart is populated exactly when
nextStartTimestamp is nonzero; and with nextStartTimestamp zero the two
suffix-bearing status branches yield the plain strings Charging and
Schedule with no next-start suffix. -/
theorem attributes_error_fields (table : ErrorTable) (toLocal : ToLocal)
    (m : MowerAttributes) :
    (m.mower.state ∈ ["ERROR", "FATAL_ERROR", "ERROR_AT_POWER_UP"] →
      (extra_state_attributes table toLocal m).errorMessage =
        table m.mower.errorCode ∧
      (extra_state_attributes table toLocal m).errorTime =
        some (toLocal m.mower.errorCodeTimestamp)) ∧
    (m.mower.state ∉ ["ERROR", "FATAL_ERROR", "ERROR_AT_POWER_UP"] →
      (extra_state_attributes table toLocal m).errorMessage = none ∧
      (extra_state_attributes table toLocal m).errorTime = none) ∧
    (m.planner.nextStartTimestamp ≠ 0 →
      (extra_state_attributes table toLocal m).nextStart =
        some (toLocal m.planner.nextStartTimestamp)) ∧
    (m.planner.nextStartTimestamp = 0 →
      (extra_state_attributes table toLocal m).nextStart = none) ∧
    (m.planner.nextStartTimestamp = 0 → m.mower.state = "IN_OPERATION" →
      m.mower.activity = "CHARGING" →
      (extra_state_attributes table toLocal m).status = some "Charging") ∧
    (m.planner.nextStartTimestamp = 0 → m.mower.state = "RESTRICTED" →
      m.planner.restrictedReason = "WEEK_SCHEDULE" →
      (extra_state_attributes table toLocal m).status = some "Schedule") := by
  refine ⟨fun h => ?_, fun h => ?_, fun h => ?_, fun h => ?_,
    fun h h2 h3 => ?_, fun h h2 h3 => ?_⟩
  · simp only [List.mem_cons, List.not_mem_nil, or_false] at h
    rcases h with h|h|h <;> simp [extra_state_attributes, h]
  · simp only [List.mem_cons, List.not_mem_nil, or_false, not_or] at h
    obtain ⟨h1, h2, h3⟩ := h
    simp [extra_state_attributes, h1, h2, h3]
  · simp [extra_state_attributes, h]
  · simp [extra_state_attributes, h]
  · simp [extra_state_attributes, get_status, h, h2, h3]
  · simp [extra_state_attributes, get_status, h, h2, h3]

/-- Witness for the amended claim C6: a charging snapshot with no
scheduled next start keeps the plain Charging status. -/
theorem attributes_error_fields_witness :
    (extra_state_attributes (fun _ => none) (fun _ => ⟨Weekday.mon, 0, 0⟩)
        ⟨⟨"IN_OPERATION", "CHARGING", 0, 0, "main_area"⟩,
          ⟨0, "NOT_APPLICABLE", "NOT_ACTIVE"⟩, ⟨50⟩⟩).status = some "Charging" :=
  (attributes_error_fields (fun _ => none) (fun _ => ⟨Weekday.mon, 0, 0⟩)
      ⟨⟨"IN_OPERATION", "CHARGING", 0, 0, "main_area"⟩,
        ⟨0, "NOT_APPLICABLE", "NOT_ACTIVE"⟩, ⟨50⟩⟩).2.2.2.2.1 rfl rfl rfl

/-- Claim C7: the custom command operation forwards exactly the
caller-supplied payload string under the caller-supplied command type,
unchanged, and raises nothing itself. -/
theorem custom_command_verbatim (mower_id command_type json_string : String)
    (act : ActionResult) :
    (async_custom_command mower_id command_type json_string act).calls =
      [⟨mower_id, json_string, command_type⟩] ∧
    (async_custom_command mower_id command_type json_string act).raised = none :=
  ⟨rfl, rfl⟩

/-- Claim C8: the error property returns the lookup result for
mower.errorCode exactly when the derived state is error, returns null
rather than failing when the code is absent from the table, and
returns the empty string when the derived state is not error. -/
theorem error_reporter (table : ErrorTable) (m : MowerAttributes) :
    (state m = some VacuumState.error → error table m = table m.mower.errorCode) ∧
    (state m = some VacuumState.error → table m.mower.errorCode = none →
      error table m = none) ∧
    (state m ≠ some VacuumState.error → error table m = some "") := by
  refine ⟨fun h => ?_, fun h hc => ?_, fun h => ?_⟩ <;> simp [error, h, *]

/-- Witness for claim C8: an error-state snapshot whose code the table
does not hold yields null. -/
theorem error_reporter_witness :
    error (fun _ => none)
        ⟨⟨"STOPPED", "STOPPED_IN_GARDEN", 7, 0, "main_area"⟩,
          ⟨0, "NOT_APPLICABLE", "NOT_ACTIVE"⟩, ⟨50⟩⟩ = none :=
  (error_reporter (fun _ => none)
      ⟨⟨"STOPPED", "STOPPED_IN_GARDEN", 7, 0, "main_area"⟩,
        ⟨0, "NOT_APPLICABLE", "NOT_ACTIVE"⟩, ⟨50⟩⟩).2.1
    (by decide) rfl

/-- Claim C9: the reported battery level is batteryPercent clamped to
the inclusive range 0 to 100; in particular -5 yields 0, 150 yields
100 and 57 yields 57. -/
theorem battery_clamp (m : MowerAttributes) :
    0 ≤ battery_level m ∧ battery_level m ≤ 100 ∧
    (m.battery.batteryPercent ≤ 0 → battery_level m = 0) ∧
    (100 ≤ m.battery.batteryPercent → battery_level m = 100) ∧
    (0 ≤ m.battery.batteryPercent → m.battery.batteryPercent ≤ 100 →
      battery_level m = m.battery.batteryPercent) ∧
    battery_level ⟨m.mower, m.planner, ⟨-5⟩⟩ = 0 ∧
    battery_level ⟨m.mower, m.planner, ⟨150⟩⟩ = 100 ∧
    battery_level ⟨m.mower, m.planner, ⟨57⟩⟩ = 57 := by
  simp only [battery_level, max_def, min_def]
  split_ifs <;> omega

/-- Witness for claim C9: input -5 clamps to 0. -/
theorem battery_clamp_witness :
    battery_level ⟨⟨"IN_OPERATION", "MOWING", 0, 0, "main_area"⟩,
        ⟨0, "NOT_APPLICABLE", "NOT_ACTIVE"⟩, ⟨-5⟩⟩ = 0 :=
  (battery_clamp
      ⟨⟨"IN_OPERATION", "MOWING", 0, 0, "main_area"⟩,
        ⟨0, "NOT_APPLICABLE", "NOT_ACTIVE"⟩, ⟨-5⟩⟩).2.2.1
    (by decide)

/-- Claim C10: for a snapshot in one of the three error states whose
error code is absent from the lookup table, the status formatter and
the status field of the attribute record are null, not the Unknown
fallback string. -/
theorem status_none_when_code_absent (table : ErrorTable) (toLocal : ToLocal)
    (m : MowerAttributes)
    (hs : m.mower.state ∈ ["ERROR", "FATAL_ERROR", "ERROR_AT_POWER_UP"])
    (hc : table m.mower.errorCode = none) :
    get_status table toLocal m = none ∧
    (extra_state_attributes table toLocal m).status = none := by
  simp only [List.mem_cons, List.not_mem_nil, or_false] at hs
  rcases hs with h|h|h <;> simp [get_status, extra_state_attributes, h, hc]

/-- Witness for claim C10: an ERROR snapshot with an absent code has a
null status. -/
theorem status_none_when_code_absent_witness :
    get_status (fun _ => none) (fun _ => ⟨Weekday.mon, 0, 0⟩)
      ⟨⟨"ERROR", "NOT_APPLICABLE", 7, 0, "main_area"⟩,
        ⟨0, "NOT_APPLICABLE", "NOT_ACTIVE"⟩, ⟨50⟩⟩ = none :=
  (status_none_when_code_absent (fun _ => none) (fun _ => ⟨Weekday.mon, 0, 0⟩)
      ⟨⟨"ERROR", "NOT_APPLICABLE", 7, 0, "main_area"⟩,
        ⟨0, "NOT_APPLICABLE", "NOT_ACTIVE"⟩, ⟨50⟩⟩
      (by decide) rfl).1

end HusqvarnaAutomower
